import Mathlib

/-!
# Verification of the fire-incident analytics pipeline

Shallow embedding of the normalization and analytics pipeline of
`streamlit_app.py` (column reconciliation, numeric coercion, geocoordinate
disambiguation, cause classification, aggregation), together with proofs of
the specification's testable properties.

Pandas/NumPy library primitives that the source calls (string replace, strip,
`pd.to_numeric`, `str.split`, `groupby` counting, float division) are embedded
as executable Lean functions on the fragment of their behaviour the source
exercises.  Numeric strings denote exact decimal values, so floats are
modelled by rationals; a non-finite result of a zero-denominator float
division is modelled as `Option.none`.  Decimal numerals are parsed to a
mantissa/exponent pair `(m, k)` whose value is `m / 10^k`, which keeps all
pipeline computations inside `Int`/`Nat`.
-/

namespace FireDashboard

/-- One cell of the source table: either missing (`NaN`/`None`) or a text
value.  Numeric cells pass through `astype(str)` in the source before any
numeric use, so text is the uniform representation. -/
inductive CellValue where
  | missing
  | str (s : String)
deriving DecidableEq

/-- Numeric value of a string of ASCII digits, most significant first. -/
def natOfDigits (l : List Char) : Nat :=
  l.foldl (fun acc c => 10 * acc + (c.toNat - 48)) 0

/-- Decimal numeral parser over a character list: optional sign, integer
digits, optional decimal point with fractional digits, at least one digit in
total.  Returns the mantissa and the number of fractional digits, so the
numeral denotes `m / 10^k`.  This is the fragment of `pd.to_numeric` (and of
Python `float(...)`) that the pipeline relies on; anything else (exponents,
`inf`, …) is a parse failure. -/
def parseDecimalAux (l : List Char) : Option (Int × Nat) :=
  let signAndRest : Int × List Char :=
    match l with
    | '-' :: r => (-1, r)
    | '+' :: r => (1, r)
    | r => (1, r)
  let sgn := signAndRest.1
  let rest := signAndRest.2
  let intPart := rest.takeWhile Char.isDigit
  let rest2 := rest.dropWhile Char.isDigit
  match rest2 with
  | [] =>
      if intPart.isEmpty then none
      else some (sgn * (natOfDigits intPart : Int), 0)
  | '.' :: fr =>
      if fr.all Char.isDigit ∧ ¬(intPart.isEmpty ∧ fr.isEmpty) then
        some (sgn * (natOfDigits (intPart ++ fr) : Int), fr.length)
      else none
  | _ => none

/-- Decimal numeral parser on strings. -/
def parseDecimal (s : String) : Option (Int × Nat) :=
  parseDecimalAux s.toList

/-- Numeric value denoted by a parsed decimal numeral `(m, k)`. -/
def decVal (m : Int) (k : Nat) : ℚ :=
  (m : ℚ) / ((10 ^ k : ℕ) : ℚ)

/-- Truncation of a rational toward zero: the behaviour of `astype(int)` on a
float column (C-style cast). -/
def ratTrunc (q : ℚ) : Int :=
  if 0 ≤ q then ⌊q⌋ else -⌊-q⌋

/-- Executable truncation toward zero of the value `m / 10^k`, used by the
pipeline; `ratTrunc_decVal` proves it agrees with `ratTrunc`. -/
def truncDec (m : Int) (k : Nat) : Int :=
  m.sign * ((m.natAbs / 10 ^ k : Nat) : Int)

/-- Python `str.replace(',', '.')`: every comma becomes a decimal point. -/
def commaToDot (s : String) : String :=
  String.mk (s.toList.map fun c => if c = ',' then '.' else c)

/-- Whitespace stripping from both ends, Python `str.strip()`. -/
def trimList (l : List Char) : List Char :=
  ((l.dropWhile Char.isWhitespace).reverse.dropWhile Char.isWhitespace).reverse

/-- Python `str.strip()` on strings. -/
def trimStr (s : String) : String :=
  String.mk (trimList s.toList)

/-- The values `replace(['', ' ', '  ', None, 'None', 'NaN', 'nan'], 0)`
turns into zero in `process_numeric_data`. -/
def blankVariants : List String :=
  ["", " ", "  ", "None", "NaN", "nan"]

/-- Per-cell numeric coercion of `process_numeric_data`
(`streamlit_app.py:170-178`): blank variants and null markers become `0`;
otherwise the decimal comma is replaced, the string stripped, parsed
(`pd.to_numeric(errors=coerce)`, parse failure ↦ `NaN` ↦ `fillna(0)`), and
the result truncated to an integer (`astype(int)`).  A missing cell survives
to `astype(str)` as `"nan"`, which `pd.to_numeric` maps to `NaN`, hence `0`
either way. -/
def normalizeNumCell : CellValue → Int
  | .missing => 0
  | .str s =>
      if s ∈ blankVariants then 0
      else
        match parseDecimal (trimStr (commaToDot s)) with
        | none => 0
        | some (m, k) => truncDec m k

example : normalizeNumCell (.str "3,0") = 3 := by decide
example : normalizeNumCell (.str "3,7") = 3 := by decide
example : normalizeNumCell (.str "-5") = -5 := by decide
example : normalizeNumCell (.str " 2 ") = 2 := by decide
example : normalizeNumCell (.str "abc") = 0 := by decide
example : normalizeNumCell (.str "nan") = 0 := by decide
example : normalizeNumCell .missing = 0 := by decide

/-- The six casualty/rescue cells of one record, as read from the canonical
columns (a column absent from the dataset is an all-`missing` column, which
the source fills with `0`; `missing` normalizes to `0`, so the row form
covers both cases). -/
structure NumRow where
  «погибло» : CellValue
  «травмы» : CellValue
  «погибло_детей» : CellValue
  «травмы_детей» : CellValue
  «спасено» : CellValue
  «эвакуировано» : CellValue

/-- One record after `process_numeric_data`: the six coerced fields plus the
derived totals `«всего_погибло»`/`«всего_травмы»` (`streamlit_app.py:187-188`). -/
structure NormNumRow where
  «погибло» : Int
  «травмы» : Int
  «погибло_детей» : Int
  «травмы_детей» : Int
  «спасено» : Int
  «эвакуировано» : Int
  «всего_погибло» : Int
  «всего_травмы» : Int
deriving DecidableEq

/-- Row-level translation of `process_numeric_data`: each of the six numeric
fields is coerced by `normalizeNumCell`, then the totals are formed as
`«погибло» + «погибло_детей»` and `«травмы» + «травмы_детей»`. -/
def process_numeric_row (r : NumRow) : NormNumRow :=
  let p := normalizeNumCell r.«погибло»
  let t := normalizeNumCell r.«травмы»
  let pd := normalizeNumCell r.«погибло_детей»
  let td := normalizeNumCell r.«травмы_детей»
  { «погибло» := p
    «травмы» := t
    «погибло_детей» := pd
    «травмы_детей» := td
    «спасено» := normalizeNumCell r.«спасено»
    «эвакуировано» := normalizeNumCell r.«эвакуировано»
    «всего_погибло» := p + pd
    «всего_травмы» := t + td }

/-! ## Cause classifier -/

/-- Lowercasing of one character, covering the ASCII and Cyrillic ranges that
occur in the source's column names and cause texts (the fragment of Python
`str.lower()` the pipeline exercises). -/
def toLowerChar (c : Char) : Char :=
  if 'A' ≤ c ∧ c ≤ 'Z' then Char.ofNat (c.toNat + 32)
  else if 0x410 ≤ c.toNat ∧ c.toNat ≤ 0x42F then Char.ofNat (c.toNat + 0x20)
  else if c.toNat = 0x401 then Char.ofNat 0x451
  else c

/-- Python `str.lower()` on strings (ASCII and Cyrillic). -/
def lowerStr (s : String) : String :=
  String.mk (s.toList.map toLowerChar)

/-- Contiguous-substring test on character lists: Python's `pattern in text`
for strings. -/
def isSubstrList (pat : List Char) : List Char → Bool
  | [] => pat.isEmpty
  | c :: rest => pat.isPrefixOf (c :: rest) || isSubstrList pat rest

/-- The source's `cause_patterns` table (`streamlit_app.py:309-335`),
verbatim and in declaration order: category name paired with its keyword
list.  First matching category wins. -/
def cause_patterns : List (String × List String) :=
  [("Электрооборудование",
    ["электр", "проводка", "короткое замыкание", "электрич", "розетка",
     "выключатель", "сеть", "напряжение", "эл.", "эл.оборудование"]),
   ("Неосторожное обращение с огнем",
    ["неосторож", "курение", "спички", "зажигалка", "огонь", "костер",
     "поджог", "умышлен", "детская шалость"]),
   ("Бытовая техника",
    ["телевизор", "холодильник", "чайник", "утюг", "микроволновка",
     "обогреватель", "отопление", "печь", "камин"]),
   ("Природные причины",
    ["молния", "гроза", "солнце", "засуха", "природн", "самовозгорание"]),
   ("Техногенные причины",
    ["производств", "техник", "оборудование", "автомобиль", "транспорт",
     "газ", "топливо", "химич", "горюч"]),
   ("Строительные причины",
    ["ремонт", "строительств", "сварка", "отделк", "покраска"]),
   ("Нарушение правил пожарной безопасности",
    ["нарушение", "правила", "пожарная безопасность", "ппб", "нормы"])]

/-- First category (in declaration order) one of whose keywords occurs in the
text; `none` if no category matches. -/
def findCategory (text : List Char) : List (String × List String) → Option String
  | [] => none
  | (cat, pats) :: rest =>
      if pats.any (fun p => isSubstrList p.toList text) then some cat
      else findCategory text rest

/-- Translation of `clean_and_categorize_cause` (`streamlit_app.py:301-347`):
a missing value or one of the explicit null markers classifies as
`"Причина не указана"` (Unspecified); otherwise the text is lowercased and
stripped, the categories are tried in order (first match wins); with no match
the text classifies as `"Другие причины"` (Other) when it is longer than 10
characters and not an explicit no-cause phrase, else as Unspecified. -/
def clean_and_categorize_cause : CellValue → String
  | .missing => "Причина не указана"
  | .str cause_text =>
      if cause_text ∈ (["", "nan", "None", "Не указана"] : List String) then
        "Причина не указана"
      else
        let text := trimList ((lowerStr cause_text).toList)
        match findCategory text cause_patterns with
        | some cat => cat
        | none =>
            if 10 < text.length ∧
                String.mk text ∉ (["не указана", "нет", "не установлена"] : List String) then
              "Другие причины"
            else "Причина не указана"

example : clean_and_categorize_cause (.str "короткое замыкание в проводке") =
    "Электрооборудование" := by decide
example : clean_and_categorize_cause (.str "дети играли со спичками") =
    "Другие причины" := by decide
example : clean_and_categorize_cause (.str "") = "Причина не указана" := by decide
example : clean_and_categorize_cause (.str "   ") = "Причина не указана" := by decide

/-! ## Geocoordinate resolver -/

/-- Split of a character list at every occurrence of `sep`, keeping empty
chunks: Python `str.split(sep)` for a one-character separator, which is what
`.str.split(' ', expand=True)` applies per row. -/
def splitOnChar (sep : Char) (l : List Char) : List (List Char) :=
  l.foldr
    (fun c acc =>
      if c = sep then [] :: acc
      else
        match acc with
        | [] => [[c]]
        | g :: gs => (c :: g) :: gs)
    [[]]

/-- Axis disambiguation of `process_geodata` (`streamlit_app.py:227-240`):
try `num1` as latitude first, then swapped, else mark the record absent. -/
def resolveGeo (num1 num2 : ℚ) : Option (ℚ × ℚ) :=
  if -90 ≤ num1 ∧ num1 ≤ 90 ∧ -180 ≤ num2 ∧ num2 ≤ 180 then some (num1, num2)
  else if -90 ≤ num2 ∧ num2 ≤ 90 ∧ -180 ≤ num1 ∧ num1 ≤ 180 then some (num2, num1)
  else none

/-- Row-level translation of `process_geodata` (`streamlit_app.py:201-240`):
split the raw coordinate string on spaces, numerically parse the first two
tokens (`pd.to_numeric(errors=coerce)`), and disambiguate the axis order;
any failure marks the record absent. -/
def process_geodata_row (s : String) : Option (ℚ × ℚ) :=
  match splitOnChar ' ' s.toList with
  | t1 :: t2 :: _ =>
      match parseDecimalAux t1, parseDecimalAux t2 with
      | some (m1, k1), some (m2, k2) => resolveGeo (decVal m1 k1) (decVal m2 k2)
      | _, _ => none
  | _ => none

/-! ## Temporal key assignment and grouping by year -/

/-- Calendar-date parser modelling the fragment of
`pd.to_datetime(errors=coerce)` the pipeline relies on: an ISO `YYYY-MM-DD`
string yields its year, anything else (including a missing cell, which is
`NaT`) yields no temporal key — `.dt.year` is then `NaN`. -/
def parseYearCell : CellValue → Option Int
  | .missing => none
  | .str s =>
      match s.toList with
      | [y1, y2, y3, y4, '-', m1, m2, '-', d1, d2] =>
          if ([y1, y2, y3, y4, m1, m2, d1, d2].all Char.isDigit) then
            let m := natOfDigits [m1, m2]
            let d := natOfDigits [d1, d2]
            if 1 ≤ m ∧ m ≤ 12 ∧ 1 ≤ d ∧ d ≤ 31 then
              some (natOfDigits [y1, y2, y3, y4] : Int)
            else none
          else none
      | _ => none

/-- Year column produced by `preprocess_data` (`streamlit_app.py:99-116`):
when a usable date column exists each record's year is the parse of its date
cell (unparseable dates give a missing year); otherwise every record gets the
fixed default year `2023`. -/
def assignYears (dateColPresent : Bool) (dateCells : List CellValue) : List (Option Int) :=
  if dateColPresent then dateCells.map parseYearCell
  else dateCells.map fun _ => some 2023

/-- Group keys of `groupby('год')`: the distinct non-missing years.  Pandas
drops missing keys (`dropna=True`); key order is irrelevant to the counting
claims. -/
def yearKeys (ys : List (Option Int)) : List Int :=
  (ys.filterMap id).dedup

/-- Per-year group sizes of `groupby('год').agg(количество_пожаров count)`:
the fire-count column is the constant `1` and never null, so the `count`
aggregate of a group is its size. -/
def yearlyCounts (ys : List (Option Int)) : List (Int × Nat) :=
  (yearKeys ys).map fun y => (y, (ys.filterMap id).count y)

/-- Sum of the per-year group sizes. -/
def totalGrouped (ys : List (Option Int)) : Nat :=
  ((yearlyCounts ys).map fun p => p.2).sum

/-! ## Year-over-year comparison -/

/-- Per-district aggregates of one year's slice
(`groupby('район').agg(...)` in `analyze_comparison`): group size and the
integer sums of the deaths and injuries columns. -/
structure YearStats where
  «пожары» : Int
  «погибло» : Int
  «травмы» : Int
deriving DecidableEq

/-- One row of the АППГ comparison table (`streamlit_app.py:787-799`).  The
percentage column of a zero prior-year denominator is a non-finite float
(`inf`/`NaN`), modelled as `none`. -/
structure ComparisonRow where
  «район» : String
  «текущий_год_пожары» : Int
  «прошлый_год_пожары» : Int
  «текущий_год_погибло» : Int
  «прошлый_год_погибло» : Int
  «текущий_год_травмы» : Int
  «прошлый_год_травмы» : Int
  «изменение_пожаров» : Int
  «изменение_пожаров_pct» : Option ℚ
  «изменение_погибло» : Int
  «изменение_травмы» : Int
deriving DecidableEq

/-- Round-half-to-even to an integer, NumPy's rounding mode behind
`Series.round`. -/
def roundHalfEvenQ (q : ℚ) : Int :=
  let f := ⌊q⌋
  let r := q - (f : ℚ)
  if r < 1 / 2 then f
  else if 1 / 2 < r then f + 1
  else if f % 2 = 0 then f else f + 1

/-- `Series.round(1)`: round to one decimal place, half to even. -/
def round1 (q : ℚ) : ℚ :=
  (roundHalfEvenQ (q * 10) : ℚ) / 10

/-- Union of the district keys of the two yearly groupings, as produced by
the index alignment of the `pd.DataFrame({...})` constructor; a district
absent from one side is filled with zeros (`fillna(0)`). -/
def unionKeys (curr prev : List (String × YearStats)) : List String :=
  (curr.map Prod.fst ++ prev.map Prod.fst).dedup

/-- District stats looked up in a yearly grouping, `0`-filled when absent. -/
def statsFor (d : String) (l : List (String × YearStats)) : YearStats :=
  (l.lookup d).getD ⟨0, 0, 0⟩

/-- The АППГ comparison rows of `analyze_comparison`
(`streamlit_app.py:787-799`): align the two yearly groupings on the union of
districts with zero fill, take differences, and compute the fire-count
percentage change `изменение / прошлый год × 100` rounded to one decimal;
with a zero denominator the float quotient is non-finite (`inf`/`NaN`),
modelled as `none`. -/
def comparisonRows (curr prev : List (String × YearStats)) : List ComparisonRow :=
  (unionKeys curr prev).map fun d =>
    let c := statsFor d curr
    let p := statsFor d prev
    { «район» := d
      «текущий_год_пожары» := c.«пожары»
      «прошлый_год_пожары» := p.«пожары»
      «текущий_год_погибло» := c.«погибло»
      «прошлый_год_погибло» := p.«погибло»
      «текущий_год_травмы» := c.«травмы»
      «прошлый_год_травмы» := p.«травмы»
      «изменение_пожаров» := c.«пожары» - p.«пожары»
      «изменение_пожаров_pct» :=
        if p.«пожары» = 0 then none
        else some (round1 (((c.«пожары» - p.«пожары» : Int) : ℚ) / (p.«пожары» : ℚ) * 100))
      «изменение_погибло» := c.«погибло» - p.«погибло»
      «изменение_травмы» := c.«травмы» - p.«травмы» }

/-- `analyze_comparison` guard (`streamlit_app.py:786`): with an empty
current-year or prior-year grouping no comparison table is produced
("Недостаточно данных для сравнения АППГ"). -/
def analyze_comparison (curr prev : List (String × YearStats)) : Option (List ComparisonRow) :=
  if curr.isEmpty ∨ prev.isEmpty then none
  else some (comparisonRows curr prev)

/-! ## Trend projection -/

/-- `Series.pct_change()` of the yearly counts, with the leading `NaN`
dropped (which is also what `.mean()` skips): the list of period-over-period
growth rates.  In the pipeline every count is a non-empty group size, so the
denominators are positive. -/
def pct_changes (l : List ℚ) : List ℚ :=
  List.zipWith (fun prev next => (next - prev) / prev) l l.tail

/-- Mean of the period-over-period growth rates
(`pct_change().mean()` over the non-`NaN` entries). -/
def mean_pct_change (l : List ℚ) : ℚ :=
  (pct_changes l).sum / ((pct_changes l).length : ℚ)

/-- Translation of `predict_fire_trend` (`streamlit_app.py:827-864`) as a
function of the yearly fire counts in ascending year order (the `groupby`
output).  Fewer than two years: no result ("Недостаточно данных для
прогноза").  Otherwise: the direction label ("📈 Растущая" when the last
count strictly exceeds the previous one, else "📉 Снижающаяся") and the
percentage change, plus — only with at least three years — the one-step
forecast `last × (1 + mean growth rate)`. -/
def predict_fire_trend (counts : List ℚ) : Option (String × ℚ × Option ℚ) :=
  if 2 ≤ counts.length then
    let current := counts.getD (counts.length - 1) 0
    let previous := counts.getD (counts.length - 2) 0
    let trend := if previous < current then "📈 Растущая" else "📉 Снижающаяся"
    let change := (current - previous) / previous * 100
    let forecast :=
      if 3 ≤ counts.length then some (current * (1 + mean_pct_change counts))
      else none
    some (trend, change, forecast)
  else none

/-! ## The caller's frame across `preprocess_data` -/

/-- A pandas frame: column labels plus rows of cells (cell `j` of a row
belongs to column `j`). -/
structure Frame where
  cols : List String
  rows : List (List CellValue)
deriving DecidableEq

/-- Column-name normalization `str.lower().str.strip()` of
`streamlit_app.py:91`. -/
def normalize_col_name (s : String) : String :=
  trimStr (lowerStr s)

/-- State of the caller's frame object after `preprocess_data` returns: the
in-place assignment `df.columns = df.columns.str.lower().str.strip()`
(`streamlit_app.py:91`) runs on the caller's object *before*
`df_processed = df.copy()` (`streamlit_app.py:94`); every later pipeline step
writes only to the copy, so the caller sees exactly the column renaming. -/
def preprocess_caller_frame (df : Frame) : Frame :=
  { df with cols := df.cols.map normalize_col_name }

/-! ## Helper lemmas -/

/-- A `filterMap` by a function that never fails keeps every element. -/
theorem length_filterMap_of_ne_none {α β : Type} (f : α → Option β) (l : List α)
    (h : ∀ a ∈ l, f a ≠ none) : (l.filterMap f).length = l.length := by
  induction l with
  | nil => rfl
  | cons a t ih =>
      cases hfa : f a with
      | none => exact absurd hfa (h a (List.mem_cons_self a t))
      | some b =>
          simp only [List.filterMap_cons, hfa, List.length_cons]
          exact congrArg Nat.succ (ih fun x hx => h x (List.mem_cons_of_mem a hx))

/-- The executable truncation used by the pipeline agrees with truncation
toward zero of the decimal value `m / 10^k`. -/
theorem ratTrunc_decVal (m : Int) (k : Nat) : ratTrunc (decVal m k) = truncDec m k := by
  have hden : (0 : ℚ) < ((10 ^ k : ℕ) : ℚ) :=
    Nat.cast_pos.2 (pow_pos (by norm_num) k)
  rcases lt_trichotomy m 0 with hm | hm | hm
  · have hq : decVal m k < 0 :=
      div_neg_of_neg_of_pos (by exact_mod_cast hm) hden
    have habs : ((m.natAbs : ℚ)) = -(m : ℚ) := by
      rw [Int.cast_natAbs, abs_of_neg hm, Int.cast_neg]
    have hneg : -(decVal m k) = ((m.natAbs : ℕ) : ℚ) / (((10 ^ k : ℕ) : ℕ) : ℚ) := by
      rw [decVal, ← neg_div, ← habs]
    rw [ratTrunc, if_neg (not_le.2 hq), truncDec, Int.sign_eq_neg_one_iff_neg.2 hm, hneg,
      ← Int.natCast_floor_eq_floor (div_nonneg (Nat.cast_nonneg _) hden.le),
      Nat.floor_div_eq_div (α := ℚ)]
    ring
  · subst hm
    simp [decVal, ratTrunc, truncDec]
  · have hq : 0 ≤ decVal m k :=
      div_nonneg (by exact_mod_cast hm.le) hden.le
    have habs : ((m.natAbs : ℚ)) = (m : ℚ) := by
      rw [Int.cast_natAbs, abs_of_pos hm]
    have hval : decVal m k = ((m.natAbs : ℕ) : ℚ) / (((10 ^ k : ℕ) : ℕ) : ℚ) := by
      rw [decVal, ← habs]
    rw [ratTrunc, if_pos hq, truncDec, Int.sign_eq_one_iff_pos.2 hm, hval,
      ← Int.natCast_floor_eq_floor (div_nonneg (Nat.cast_nonneg _) hden.le),
      Nat.floor_div_eq_div (α := ℚ)]
    ring

/-- Truncation toward zero of a non-negative value is non-negative. -/
theorem ratTrunc_nonneg {q : ℚ} (h : 0 ≤ q) : 0 ≤ ratTrunc q := by
  rw [ratTrunc, if_pos h]
  exact Int.floor_nonneg.2 h

/-! ## Claims -/

/-- C7: for every record, after numeric normalization, `всего_погибло`
(total deaths) equals `погибло + погибло_детей` and `всего_травмы`
(total injuries) equals `травмы + травмы_детей`, whatever the six raw cell
values were. -/
theorem process_numeric_row_totals (r : NumRow) :
    (process_numeric_row r).«всего_погибло» =
        (process_numeric_row r).«погибло» + (process_numeric_row r).«погибло_детей» ∧
    (process_numeric_row r).«всего_травмы» =
        (process_numeric_row r).«травмы» + (process_numeric_row r).«травмы_детей» :=
  ⟨rfl, rfl⟩

/-- C2 counterexample: the merged cause text "дети играли со спичками"
classifies as `Другие причины` (Other), not as
`Неосторожное обращение с огнем` (Careless handling of fire): the keyword
`"спички"` does not occur in the inflected form `"спичками"`, no other
keyword matches, and the text is longer than 10 characters. -/
theorem cause_spichkami_is_other :
    clean_and_categorize_cause (.str "дети играли со спичками") = "Другие причины" ∧
    "Другие причины" ≠ "Неосторожное обращение с огнем" :=
  ⟨by decide, by decide⟩

/-- C2 (amended): the cause classifier maps "короткое замыкание в проводке"
to `Электрооборудование` (Electrical), maps "дети играли со спичками" to
`Другие причины` (Other), and maps missing, empty and blank text to
`Причина не указана` (Unspecified). -/
theorem clean_and_categorize_cause_spec :
    clean_and_categorize_cause (.str "короткое замыкание в проводке") =
        "Электрооборудование" ∧
    clean_and_categorize_cause (.str "дети играли со спичками") = "Другие причины" ∧
    clean_and_categorize_cause (.str "") = "Причина не указана" ∧
    clean_and_categorize_cause (.str "   ") = "Причина не указана" ∧
    clean_and_categorize_cause .missing = "Причина не указана" := by
  refine ⟨by decide, by decide, by decide, by decide, by decide⟩

/-- C9 counterexample: `preprocess_data` mutates the caller's frame object:
the column-name normalization `df.columns = df.columns.str.lower().str.strip()`
runs on the caller's frame before the working copy is taken, so a raw frame
with the source header "Муниципальный район" does not survive preprocessing
unchanged. -/
theorem preprocess_mutates_caller :
    preprocess_caller_frame ⟨["Муниципальный район"], [[.str "x"]]⟩ ≠
      (⟨["Муниципальный район"], [[.str "x"]]⟩ : Frame) := by
  decide

/-- C9 (amended): the pipeline leaves the caller's cell data untouched — all
reconciliation, normalization and derived-column additions happen on the
pipeline's own copy — but the column labels of the caller's frame are
normalized (lowercased and stripped) in place; a frame whose column names are
already normal is left fully unchanged. -/
theorem preprocess_caller_frame_spec (df : Frame) :
    (preprocess_caller_frame df).rows = df.rows ∧
    (preprocess_caller_frame df).cols = df.cols.map normalize_col_name ∧
    ((∀ c ∈ df.cols, normalize_col_name c = c) → preprocess_caller_frame df = df) := by
  refine ⟨rfl, rfl, fun h => ?_⟩
  cases df with
  | mk cols rows =>
      simp only [preprocess_caller_frame, Frame.mk.injEq, and_true]
      exact (List.map_congr_left h).trans (List.map_id cols)

/-- C9 witness: a frame with already-normalized column names passes through
`preprocess_data` unchanged. -/
theorem preprocess_caller_frame_spec_witness :
    preprocess_caller_frame ⟨["район", "год"], []⟩ = (⟨["район", "год"], []⟩ : Frame) :=
  (preprocess_caller_frame_spec ⟨["район", "год"], []⟩).2.2 (by decide)

/-- C10: every record carries a fire count of exactly 1, so every year group
of the normalized dataset has size at least 1; in particular all counts cast
to the float frame are positive, and the previous-year count — the divisor of
the percentage-change computation in `predict_fire_trend` — is nonzero, so
that division never divides by zero. -/
theorem yearlyCounts_pos (ys : List (Option Int)) :
    (∀ p ∈ yearlyCounts ys, 1 ≤ p.2) ∧
    (∀ q ∈ (yearlyCounts ys).map (fun p => (p.2 : ℚ)), 0 < q) ∧
    (2 ≤ ((yearlyCounts ys).map (fun p => (p.2 : ℚ))).length →
      ((yearlyCounts ys).map (fun p => (p.2 : ℚ))).getD
        (((yearlyCounts ys).map (fun p => (p.2 : ℚ))).length - 2) 0 ≠ 0) := by
  have h1 : ∀ p ∈ yearlyCounts ys, 1 ≤ p.2 := by
    intro p hp
    rcases List.mem_map.1 hp with ⟨y, hy, rfl⟩
    exact List.count_pos_iff.2 (List.mem_dedup.1 hy)
  have h2 : ∀ q ∈ (yearlyCounts ys).map (fun p => (p.2 : ℚ)), 0 < q := by
    intro q hq
    rcases List.mem_map.1 hq with ⟨p, hp, rfl⟩
    exact_mod_cast Nat.cast_pos.2 (h1 p hp)
  refine ⟨h1, h2, fun hlen => ?_⟩
  set l := (yearlyCounts ys).map (fun p => (p.2 : ℚ)) with hl
  have hidx : l.length - 2 < l.length := by omega
  rw [List.getD_eq_getElem l 0 hidx]
  exact ne_of_gt (h2 _ (List.getElem_mem hidx))

/-- C10 witness: on the dataset with years 2021, 2021, 2022 the year group
(2021, 2) has count at least 1. -/
theorem yearlyCounts_pos_witness :
    (1 : Nat) ≤ (((2021 : Int), (2 : Nat))).2 :=
  (yearlyCounts_pos [some 2021, some 2021, some 2022]).1 (2021, 2) (by decide)

/-- C4 counterexample: with a date column present, a record whose date cell
does not parse (`pd.to_datetime(errors=coerce)` gives `NaT`, `.dt.year` gives
`NaN`) is dropped by `groupby('год')`, so the per-year counts sum to 1 on
this 2-record dataset. -/
theorem year_grouping_drops_unparseable_dates :
    totalGrouped (assignYears true [CellValue.str "2021-01-05", CellValue.str "garbage"]) ≠
      ([CellValue.str "2021-01-05", CellValue.str "garbage"] : List CellValue).length := by
  decide

/-- C4 (amended): aggregation by year counts exactly the records with a
resolvable temporal key: the sum of per-year group counts always equals the
number of records whose year is present; it equals the total record count
when no usable date column exists (every record then gets the injected
default year) and also whenever every date cell parses — only records with an
unparseable date in a present date column are dropped from the grouping. -/
theorem totalGrouped_assignYears (present : Bool) (ds : List CellValue) :
    totalGrouped (assignYears present ds) =
        ((assignYears present ds).filterMap id).length ∧
    (present = false → totalGrouped (assignYears present ds) = ds.length) ∧
    ((∀ c ∈ ds, parseYearCell c ≠ none) →
        totalGrouped (assignYears present ds) = ds.length) := by
  have hbase : ∀ zs : List (Option Int),
      totalGrouped zs = (zs.filterMap id).length := by
    intro zs
    simp only [totalGrouped, yearlyCounts, yearKeys, List.map_map, Function.comp_def]
    exact List.sum_map_count_dedup_eq_length (zs.filterMap id)
  refine ⟨hbase _, fun hp => ?_, fun hall => ?_⟩
  · subst hp
    rw [hbase]
    simp only [assignYears, Bool.false_eq_true, if_false, List.filterMap_map]
    exact length_filterMap_of_ne_none _ ds fun a _ => Option.some_ne_none 2023
  · rw [hbase]
    cases present with
    | false =>
        simp only [assignYears, Bool.false_eq_true, if_false, List.filterMap_map]
        exact length_filterMap_of_ne_none _ ds fun a _ => Option.some_ne_none 2023
    | true =>
        simp only [assignYears, if_true, List.filterMap_map]
        exact length_filterMap_of_ne_none _ ds fun a ha => hall a ha

/-- C4 witness: a single-record dataset whose date parses is fully counted. -/
theorem totalGrouped_assignYears_witness :
    totalGrouped (assignYears true [CellValue.str "2022-03-04"]) =
      ([CellValue.str "2022-03-04"] : List CellValue).length :=
  (totalGrouped_assignYears true [CellValue.str "2022-03-04"]).2.2 (by decide)

/-- C5: the АППГ comparison never divides by a zero prior-year count with an
exception — every row of the table is always produced — and a district whose
prior-year fire count is 0 (a district absent from the prior year, zero
filled) gets no numeric percentage change: its `изменение_пожаров_%` field is
the non-finite float marker, modelled as `none`. -/
theorem comparison_zero_prior_year (curr prev : List (String × YearStats))
    (row : ComparisonRow) (hmem : row ∈ comparisonRows curr prev)
    (hzero : row.«прошлый_год_пожары» = 0) :
    row.«изменение_пожаров_pct» = none := by
  rcases List.mem_map.1 hmem with ⟨d, _, rfl⟩
  simp only at hzero ⊢
  rw [if_pos hzero]

/-- C5 witness: with the current year containing only district "A" and the
prior year only district "B", the comparison row of district "A" has a zero
prior-year count and no numeric percentage change. -/
theorem comparison_zero_prior_year_witness :
    ({ «район» := "A", «текущий_год_пожары» := 2, «прошлый_год_пожары» := 0,
       «текущий_год_погибло» := 0, «прошлый_год_погибло» := 0,
       «текущий_год_травмы» := 0, «прошлый_год_травмы» := 0,
       «изменение_пожаров» := 2, «изменение_пожаров_pct» := none,
       «изменение_погибло» := 0, «изменение_травмы» := 0 } :
      ComparisonRow).«изменение_пожаров_pct» = none :=
  comparison_zero_prior_year [("A", ⟨2, 0, 0⟩)] [("B", ⟨1, 0, 0⟩)] _ (by decide) (by decide)

/-- C1 counterexample: the Numeric Normalizer does not clamp signs, so its
output is not always non-negative: the raw cell "-5" parses and coerces to
the integer -5. -/
theorem normalizeNumCell_negative :
    normalizeNumCell (.str "-5") = -5 ∧ ¬(0 ≤ (-5 : Int)) :=
  ⟨by decide, by decide⟩

/-- C1 (amended): for every record and each of the six casualty/rescue
fields the Numeric Normalizer yields an integer: blank variants, null
markers (including a missing cell) and parse failures yield 0; a cell whose
comma-fixed, stripped text parses as a decimal numeral yields the integer
truncation of its numeric value — non-negative whenever that value is
non-negative (a negative numeral such as "-5" yields a negative integer) —
and in particular the locale-formatted cell "3,0" yields the truncation of
3.0, i.e. 3. -/
theorem normalizeNumCell_spec :
    normalizeNumCell .missing = 0 ∧
    (∀ s ∈ blankVariants, normalizeNumCell (.str s) = 0) ∧
    (∀ s : String, s ∉ blankVariants →
        parseDecimal (trimStr (commaToDot s)) = none → normalizeNumCell (.str s) = 0) ∧
    (∀ (s : String) (m : Int) (k : Nat), s ∉ blankVariants →
        parseDecimal (trimStr (commaToDot s)) = some (m, k) →
        normalizeNumCell (.str s) = ratTrunc (decVal m k) ∧
          (0 ≤ decVal m k → 0 ≤ normalizeNumCell (.str s))) ∧
    (normalizeNumCell (.str "3,0") = ratTrunc (decVal 30 1) ∧ decVal 30 1 = 3 ∧
      normalizeNumCell (.str "3,0") = 3) ∧
    (∀ r : NumRow,
      (process_numeric_row r).«погибло» = normalizeNumCell r.«погибло» ∧
      (process_numeric_row r).«травмы» = normalizeNumCell r.«травмы» ∧
      (process_numeric_row r).«погибло_детей» = normalizeNumCell r.«погибло_детей» ∧
      (process_numeric_row r).«травмы_детей» = normalizeNumCell r.«травмы_детей» ∧
      (process_numeric_row r).«спасено» = normalizeNumCell r.«спасено» ∧
      (process_numeric_row r).«эвакуировано» = normalizeNumCell r.«эвакуировано») := by
  have hsome : ∀ (s : String) (m : Int) (k : Nat), s ∉ blankVariants →
      parseDecimal (trimStr (commaToDot s)) = some (m, k) →
      normalizeNumCell (.str s) = truncDec m k := by
    intro s m k hs hp
    simp only [normalizeNumCell, if_neg hs, hp]
  refine ⟨rfl, ?_, ?_, ?_, ?_, ?_⟩
  · intro s hs
    simp only [normalizeNumCell, if_pos hs]
  · intro s hs hp
    simp only [normalizeNumCell, if_neg hs, hp]
  · intro s m k hs hp
    have h := hsome s m k hs hp
    refine ⟨h.trans (ratTrunc_decVal m k).symm, fun hv => ?_⟩
    rw [h, ← ratTrunc_decVal]
    exact ratTrunc_nonneg hv
  · refine ⟨?_, by norm_num [decVal], by decide⟩
    have h := hsome "3,0" 30 1 (by decide) (by decide)
    exact h.trans (ratTrunc_decVal 30 1).symm
  · intro r
    exact ⟨rfl, rfl, rfl, rfl, rfl, rfl⟩

/-- C1 witness: the locale-formatted cell "3,7" is coerced to the truncation
of its decimal value 3.7, a non-negative integer. -/
theorem normalizeNumCell_spec_witness :
    normalizeNumCell (.str "3,7") = ratTrunc (decVal 37 1) ∧
      (0 ≤ decVal 37 1 → 0 ≤ normalizeNumCell (.str "3,7")) :=
  normalizeNumCell_spec.2.2.2.1 "3,7" 37 1 (by decide) (by decide)

/-- C3: the geocoordinate resolver assigns `lat = a, lon = b` whenever
`a ∈ [-90, 90]` and `b ∈ [-180, 180]`; otherwise `lat = b, lon = a` whenever
`b ∈ [-90, 90]` and `a ∈ [-180, 180]`; otherwise it marks the record absent.
When both orderings validate the first one wins (`resolveGeo 45 45` keeps
`lat = 45 = a`), and the coordinate string "131.090314 60.465566" resolves to
`lat = 60.465566, lon = 131.090314`. -/
theorem resolveGeo_spec :
    (∀ a b : ℚ, (-90 ≤ a ∧ a ≤ 90 ∧ -180 ≤ b ∧ b ≤ 180) →
        resolveGeo a b = some (a, b)) ∧
    (∀ a b : ℚ, ¬(-90 ≤ a ∧ a ≤ 90 ∧ -180 ≤ b ∧ b ≤ 180) →
        (-90 ≤ b ∧ b ≤ 90 ∧ -180 ≤ a ∧ a ≤ 180) → resolveGeo a b = some (b, a)) ∧
    (∀ a b : ℚ, ¬(-90 ≤ a ∧ a ≤ 90 ∧ -180 ≤ b ∧ b ≤ 180) →
        ¬(-90 ≤ b ∧ b ≤ 90 ∧ -180 ≤ a ∧ a ≤ 180) → resolveGeo a b = none) ∧
    resolveGeo 45 45 = some (45, 45) ∧
    process_geodata_row "131.090314 60.465566" =
      some (decVal 60465566 6, decVal 131090314 6) := by
  refine ⟨?_, ?_, ?_, ?_, ?_⟩
  · intro a b h
    simp only [resolveGeo]
    rw [if_pos h]
  · intro a b h1 h2
    simp only [resolveGeo]
    rw [if_neg h1, if_pos h2]
  · intro a b h1 h2
    simp only [resolveGeo]
    rw [if_neg h1, if_neg h2]
  · simp only [resolveGeo]
    rw [if_pos (by norm_num)]
  · show resolveGeo (decVal 131090314 6) (decVal 60465566 6) =
      some (decVal 60465566 6, decVal 131090314 6)
    have h1 : ¬(-90 ≤ decVal 131090314 6 ∧ decVal 131090314 6 ≤ 90 ∧
        -180 ≤ decVal 60465566 6 ∧ decVal 60465566 6 ≤ 180) := by
      norm_num [decVal]
    have h2 : -90 ≤ decVal 60465566 6 ∧ decVal 60465566 6 ≤ 90 ∧
        -180 ≤ decVal 131090314 6 ∧ decVal 131090314 6 ≤ 180 := by
      norm_num [decVal]
    simp only [resolveGeo]
    rw [if_neg h1, if_pos h2]

/-- C3 witness: a pair already in latitude-first order resolves as given. -/
theorem resolveGeo_spec_witness :
    resolveGeo 10 20 = some (10, 20) :=
  resolveGeo_spec.1 10 20 (by decide)

/-- C6: the trend projection reports no result ("insufficient data") with
fewer than two distinct years; with at least two it reports a direction —
"📈 Растущая" (increasing) exactly when the last yearly count strictly
exceeds the previous one, else "📉 Снижающаяся" (decreasing) — and the
percentage change relative to the previous year; the one-step forecast
`last × (1 + mean growth rate)` is emitted exactly when at least three years
are present. -/
theorem predict_fire_trend_spec (counts : List ℚ) :
    (counts.length < 2 → predict_fire_trend counts = none) ∧
    (2 ≤ counts.length → ∃ t c f, predict_fire_trend counts = some (t, c, f) ∧
      (t = "📈 Растущая" ↔
        counts.getD (counts.length - 2) 0 < counts.getD (counts.length - 1) 0) ∧
      (t = "📈 Растущая" ∨ t = "📉 Снижающаяся") ∧
      c = (counts.getD (counts.length - 1) 0 - counts.getD (counts.length - 2) 0) /
            counts.getD (counts.length - 2) 0 * 100 ∧
      (counts.length = 2 → f = none) ∧
      (3 ≤ counts.length →
        f = some (counts.getD (counts.length - 1) 0 * (1 + mean_pct_change counts)))) := by
  constructor
  · intro h
    simp only [predict_fire_trend]
    rw [if_neg (by omega)]
  · intro h
    simp only [predict_fire_trend]
    rw [if_pos h]
    refine ⟨_, _, _, rfl, ?_, ?_, rfl, ?_, ?_⟩
    · by_cases hc : counts.getD (counts.length - 2) 0 < counts.getD (counts.length - 1) 0
      · rw [if_pos hc]
        exact iff_of_true rfl hc
      · rw [if_neg hc]
        exact iff_of_false (by decide) hc
    · by_cases hc : counts.getD (counts.length - 2) 0 < counts.getD (counts.length - 1) 0
      · exact Or.inl (by rw [if_pos hc])
      · exact Or.inr (by rw [if_neg hc])
    · intro h2
      rw [if_neg (by omega)]
    · intro h3
      rw [if_pos h3]

/-- C6 witness: on the three-year counts 1, 2, 4 the projection reports the
increasing direction and emits the forecast. -/
theorem predict_fire_trend_spec_witness :
    ∃ t c f, predict_fire_trend ([1, 2, 4] : List ℚ) = some (t, c, f) ∧
      (t = "📈 Растущая" ↔
        ([1, 2, 4] : List ℚ).getD (([1, 2, 4] : List ℚ).length - 2) 0 <
          ([1, 2, 4] : List ℚ).getD (([1, 2, 4] : List ℚ).length - 1) 0) ∧
      (t = "📈 Растущая" ∨ t = "📉 Снижающаяся") ∧
      c = (([1, 2, 4] : List ℚ).getD (([1, 2, 4] : List ℚ).length - 1) 0 -
            ([1, 2, 4] : List ℚ).getD (([1, 2, 4] : List ℚ).length - 2) 0) /
            ([1, 2, 4] : List ℚ).getD (([1, 2, 4] : List ℚ).length - 2) 0 * 100 ∧
      (([1, 2, 4] : List ℚ).length = 2 → f = none) ∧
      (3 ≤ ([1, 2, 4] : List ℚ).length →
        f = some (([1, 2, 4] : List ℚ).getD (([1, 2, 4] : List ℚ).length - 1) 0 *
          (1 + mean_pct_change ([1, 2, 4] : List ℚ)))) :=
  (predict_fire_trend_spec [1, 2, 4]).2 (by decide)

end FireDashboard
